import Mathlib

/-!
Shallow embedding of the schema/filter/normalization core of the
`notion-tool` CLI (src/notion_kanban_cli/{schema,transform,cli}.py).

Python dictionaries are modelled as association lists `List (String × Json)`
(Notion payloads have unique keys; lookup takes the first match), Python's
`None` as `Json.null`, and Python truthiness as `Json.truthy`.
-/

namespace NotionTool

/-- JSON-like values: the payloads the program manipulates. Numbers are
modelled as integers (the core never computes with numbers, it only moves
them around). -/
inductive Json where
  | null : Json
  | bool (b : Bool) : Json
  | num (n : Int) : Json
  | str (s : String) : Json
  | arr (elems : List Json) : Json
  | obj (fields : List (String × Json)) : Json

/-- First-match lookup in an association list: `d.get(key)` on a Python dict
(which has unique keys). Returns `none` when the key is absent. -/
def pyLookup : List (String × Json) → String → Option Json
  | [], _ => none
  | (k, v) :: rest, key => if k = key then some v else pyLookup rest key

/-- `d.get(key, default)`. -/
def pyLookupD (fields : List (String × Json)) (key : String) (dflt : Json) : Json :=
  (pyLookup fields key).getD dflt

/-- Python truthiness of a JSON value (`if x:`): `None`, `False`, `0`, `""`,
`[]` and `{}` are falsy, everything else truthy. -/
def Json.truthy : Json → Bool
  | .null => false
  | .bool b => b
  | .num n => n != 0
  | .str s => !s.isEmpty
  | .arr xs => !xs.isEmpty
  | .obj fs => !fs.isEmpty

/-- `x.get(key)` where `x` is expected to be a dict; absent key gives `None`.
(On a non-dict, Python would raise `AttributeError`; payloads the program
feeds here are dicts, so the non-dict arm is outside well-formed inputs.) -/
def pyGet (j : Json) (key : String) : Json :=
  match j with
  | .obj fs => pyLookupD fs key .null
  | _ => .null

/-- View a value as a list for iteration (`for x in v`). Non-arrays give `[]`;
well-formed payloads always carry arrays where the code iterates. -/
def Json.asList : Json → List Json
  | .arr xs => xs
  | _ => []

/-- View a value as a dict's field list. -/
def Json.asObj : Json → List (String × Json)
  | .obj fs => fs
  | _ => []

/-- The whitespace characters Python's `str.strip()` removes (ASCII part;
the payloads at hand are ASCII). -/
def isPySpace (c : Char) : Bool :=
  c = ' ' || c = '\t' || c = '\n' || c = '\x0d' || c = '\x0b' || c = '\x0c'

/-- `s.strip()`: drop leading and trailing whitespace. -/
def pyStrip (s : String) : String :=
  String.mk (((s.data.dropWhile isPySpace).reverse.dropWhile isPySpace).reverse)

/-- `s.lower()` (ASCII case folding; property names at hand are ASCII). -/
def pyLower (s : String) : String :=
  String.mk (s.data.map Char.toLower)

/-- `sep in s` for a one-character separator. -/
def pyContains (s : String) (c : Char) : Bool :=
  s.data.contains c

/-- `s.split(sep)` for a one-character separator: unlimited splits, empty
pieces kept, `""` giving `[""]`. -/
def pySplitAux (sep : Char) : List Char → List Char → List String
  | [], acc => [String.mk acc.reverse]
  | c :: cs, acc =>
    if c = sep then String.mk acc.reverse :: pySplitAux sep cs []
    else pySplitAux sep cs (c :: acc)

/-- `s.split(sep)`. -/
def pySplit (sep : Char) (s : String) : List String :=
  pySplitAux sep s.data []

/-- `s.split(sep, 1)`: split at the first occurrence only. -/
def pySplit1Aux (sep : Char) : List Char → List Char → List String
  | [], acc => [String.mk acc.reverse]
  | c :: cs, acc =>
    if c = sep then [String.mk acc.reverse, String.mk cs]
    else pySplit1Aux sep cs (c :: acc)

/-- `s.split(sep, 1)`. -/
def pySplit1 (sep : Char) (s : String) : List String :=
  pySplit1Aux sep s.data []

/-- A value found inside a dict is structurally smaller than the dict
(used for termination of the recursive normalizer). -/
theorem pyLookup_sizeOf_lt {fields : List (String × Json)} {key : String} {v : Json}
    (h : pyLookup fields key = some v) : sizeOf v < sizeOf (Json.obj fields) := by
  induction fields with
  | nil => simp [pyLookup] at h
  | cons p rest ih =>
    obtain ⟨k, w⟩ := p
    rw [pyLookup] at h
    by_cases hk : k = key
    · rw [if_pos hk] at h
      cases h
      simp
      omega
    · rw [if_neg hk] at h
      have hlt := ih h
      simp at hlt ⊢
      omega

/-- The empty dict is smaller than any dict a key was found in. -/
theorem sizeOf_obj_nil_lt {fields : List (String × Json)} {key : String} {v : Json}
    (h : pyLookup fields key = some v) : sizeOf (Json.obj []) < sizeOf (Json.obj fields) := by
  cases fields with
  | nil => simp [pyLookup] at h
  | cons p rest =>
    obtain ⟨k, w⟩ := p
    simp
    omega

/-! ## Value Normalizer (`transform.py`, `transform_property_value`) -/

/-- One rich-text run's contribution to a title/rich_text join:
`t.get("plain_text", "")`. (A run whose `plain_text` is present but not a
string would make Python's `"".join` raise `TypeError`; well-formed runs
carry strings, so those arms yield `""` here.) -/
def plainTextOf (t : Json) : String :=
  match pyGet t "plain_text" with
  | .str s => s
  | _ => ""

/-- `"".join(t.get("plain_text", "") for t in ts)`. -/
def joinPlainTexts (ts : List Json) : String :=
  String.join (ts.map plainTextOf)

/-- `transform_property_value(prop_data)`: dispatch on the payload's `type`
tag and normalize. `parseIso` stands for the external
`datetime.fromisoformat(s).isoformat()` round-trip: `some r` is the
normalized re-serialization, `none` models the `ValueError` the source
catches. A non-dict argument is returned unchanged (in Python `.get` would
raise there; the program only ever passes dicts, the `formula` key of a
well-formed formula payload included). -/
def transformPropertyValue (parseIso : String → Option String) (j : Json) : Json :=
  match j with
  | .obj fields =>
    match hty : pyLookup fields "type" with
    | some (.str ty) =>
      if ty = "title" then
        .str (joinPlainTexts (pyLookupD fields "title" (.arr [])).asList)
      else if ty = "rich_text" then
        .str (joinPlainTexts (pyLookupD fields "rich_text" (.arr [])).asList)
      else if ty = "number" then pyLookupD fields "number" .null
      else if ty = "select" then
        let selectData := pyLookupD fields "select" .null
        if selectData.truthy then pyGet selectData "name" else .null
      else if ty = "multi_select" then
        .arr (((pyLookupD fields "multi_select" (.arr [])).asList).map (fun s => pyGet s "name"))
      else if ty = "status" then
        let statusData := pyLookupD fields "status" .null
        if statusData.truthy then pyGet statusData "name" else .null
      else if ty = "date" then
        let dateData := pyLookupD fields "date" .null
        if dateData.truthy then
          let start := pyGet dateData "start"
          if start.truthy then
            match start with
            | .str s =>
              match parseIso s with
              | some iso => .str iso
              | none => .str s
            | other => other
          else .null
        else .null
      else if ty = "checkbox" then pyLookupD fields "checkbox" .null
      else if ty = "url" then pyLookupD fields "url" .null
      else if ty = "email" then pyLookupD fields "email" .null
      else if ty = "phone_number" then pyLookupD fields "phone_number" .null
      else if ty = "formula" then
        match hf : pyLookup fields "formula" with
        | some f => transformPropertyValue parseIso f
        | none => transformPropertyValue parseIso (.obj [])
      else if ty = "relation" then
        .arr (((pyLookupD fields "relation" (.arr [])).asList).map (fun r => pyGet r "id"))
      else if ty = "people" then
        .arr (((pyLookupD fields "people" (.arr [])).asList).map (fun p => pyGet p "id"))
      else if ty = "files" then
        .arr (((pyLookupD fields "files" (.arr [])).asList).map (fun f => pyGet f "name"))
      else if ty = "created_time" then pyLookupD fields "created_time" .null
      else if ty = "created_by" then pyLookupD fields "created_by" .null
      else if ty = "last_edited_time" then pyLookupD fields "last_edited_time" .null
      else if ty = "last_edited_by" then pyLookupD fields "last_edited_by" .null
      else .obj fields
    | _ => .obj fields
  | other => other
termination_by sizeOf j
decreasing_by
  · exact pyLookup_sizeOf_lt hf
  · exact sizeOf_obj_nil_lt hty

/-! ## Schema Model (`schema.py`, class `DatabaseSchema`)

The scan bodies of `get_status_property_name` / `get_tag_property_names` are
given first as pure functions of the property list (`schema_data` is
immutable, so the scans are pure); the memoizing methods themselves are
modelled below as state transformers over the two cache fields. -/

/-- Truthiness of a Python `str | None` (`if s:`). -/
def pyTruthyStr : Option String → Bool
  | none => false
  | some s => !s.isEmpty

/-- `self.properties`: `schema_data.get("properties", {})` viewed as a dict. -/
def propertiesOf (schemaData : Json) : List (String × Json) :=
  (pyGet schemaData "properties").asObj

/-- `prop_def.get("type") == tag` for a string literal `tag` (Python `==`
between a non-string and a string is `False`). -/
def hasTypeTag (propDef : Json) (tag : String) : Bool :=
  match pyGet propDef "type" with
  | .str s => s = tag
  | _ => false

/-- The scan loop of `get_status_property_name`: the name of the first
property whose `type` is `"status"`, else `None`. -/
def getStatusPropertyName : List (String × Json) → Option String
  | [] => none
  | (propName, propDef) :: rest =>
    if hasTypeTag propDef "status" then some propName
    else getStatusPropertyName rest

/-- The scan loop of `get_tag_property_names`: names of all properties whose
`type` is `"multi_select"`, in schema order. -/
def getTagPropertyNames : List (String × Json) → List String
  | [] => []
  | (propName, propDef) :: rest =>
    if hasTypeTag propDef "multi_select" then
      propName :: getTagPropertyNames rest
    else getTagPropertyNames rest

/-- `opt.get("name", "")` (an option is a dict in well-formed schemas). -/
def optName (opt : Json) : Json :=
  match opt with
  | .obj fs => (pyLookup fs "name").getD (.str "")
  | _ => .str ""

/-- The comprehension `[opt.get("name", "") for opt in opts if opt.get("name")]`
shared by `get_status_options` and `get_tag_options`. -/
def filterOptionNames (opts : List Json) : List Json :=
  (opts.filter fun opt => (pyGet opt "name").truthy).map optName

/-- `get_status_options`: option names of the status property; `[]` when the
status property is absent (`if not status_prop:` is a truthiness test, so an
empty-string property name also yields `[]`). -/
def getStatusOptions (props : List (String × Json)) : List Json :=
  match getStatusPropertyName props with
  | none => []
  | some statusProp =>
    if statusProp.isEmpty then []
    else
      let propDef := pyLookupD props statusProp (.obj [])
      let statusOptions := (pyGet (pyGet propDef "status") "options").asList
      filterOptionNames statusOptions

/-- `get_tag_options(tag_property)`. -/
def getTagOptions (props : List (String × Json)) (tagProperty : String) : List Json :=
  let propDef := pyLookupD props tagProperty (.obj [])
  let tagOptions := (pyGet (pyGet propDef "multi_select") "options").asList
  filterOptionNames tagOptions

/-- `find_property_by_name(name)`: case-insensitive first match. -/
def findPropertyByName (props : List (String × Json)) (name : String) : Option Json :=
  let nameLower := pyLower name
  match props with
  | [] => none
  | (propName, propDef) :: rest =>
    if pyLower propName = nameLower then some propDef
    else findPropertyByName rest name

/-- A `DatabaseSchema` instance: the immutable payload plus the two mutable
memo fields, `_status_property_name` (initially `None`) and
`_tag_property_names` (initially `[]`). -/
structure DatabaseSchema where
  databaseId : String
  schemaData : Json
  statusMemo : Option String
  tagMemo : List String

/-- `DatabaseSchema.__init__`. -/
def DatabaseSchema.init (databaseId : String) (schemaData : Json) : DatabaseSchema :=
  { databaseId := databaseId, schemaData := schemaData, statusMemo := none, tagMemo := [] }

/-- `get_status_property_name` as a state transformer: returns the value, the
updated instance, and whether the property scan ran (`false` means the memo
was returned directly). The guard is `if self._status_property_name is not
None`; on a failed scan the source returns `None` without writing the memo. -/
def getStatusPropertyNameS (s : DatabaseSchema) : Option String × DatabaseSchema × Bool :=
  match s.statusMemo with
  | some n => (some n, s, false)
  | none =>
    match getStatusPropertyName (propertiesOf s.schemaData) with
    | some n => (some n, { s with statusMemo := some n }, true)
    | none => (none, s, true)

/-- `get_tag_property_names` as a state transformer. The guard is the list's
truthiness (`if self._tag_property_names:`), so an empty memo — whether
initial or the result of a completed scan — never short-circuits. -/
def getTagPropertyNamesS (s : DatabaseSchema) : List String × DatabaseSchema × Bool :=
  if s.tagMemo.isEmpty then
    let tagNames := getTagPropertyNames (propertiesOf s.schemaData)
    (tagNames, { s with tagMemo := tagNames }, true)
  else (s.tagMemo, s, false)

/-! ## Schema Cache (`schema.py`, `SchemaCache` / `get_database_schema`) -/

/-- The cache's dict, database id → schema. -/
def SchemaCache := List (String × DatabaseSchema)

/-- `SchemaCache.get`. -/
def cacheGet : SchemaCache → String → Option DatabaseSchema
  | [], _ => none
  | (k, v) :: rest, databaseId =>
    if k = databaseId then some v else cacheGet rest databaseId

/-- `SchemaCache.set` (dict assignment: replace or append). -/
def cacheSet : SchemaCache → String → DatabaseSchema → SchemaCache
  | [], databaseId, schema => [(databaseId, schema)]
  | (k, v) :: rest, databaseId, schema =>
    if k = databaseId then (databaseId, schema) :: rest
    else (k, v) :: cacheSet rest databaseId schema

/-- `get_database_schema(client, database_id)`: return the cached model if
present (a `DatabaseSchema` object is always truthy, so `if cached:` is a
presence test), else fetch, wrap, store. `fetch` stands for the external
`client.get_database`; the `Nat` counts how many times it was invoked. -/
def getDatabaseSchema (fetch : String → Json) (cache : SchemaCache)
    (databaseId : String) : DatabaseSchema × SchemaCache × Nat :=
  match cacheGet cache databaseId with
  | some cached => (cached, cache, 0)
  | none =>
    let schemaData := fetch databaseId
    let schema := DatabaseSchema.init databaseId schemaData
    (schema, cacheSet cache databaseId schema, 1)

/-- `n` successive schema resolutions of the same id, threading the cache and
summing fetch invocations. -/
def resolveN (fetch : String → Json) (databaseId : String) :
    Nat → SchemaCache → SchemaCache × Nat
  | 0, cache => (cache, 0)
  | n + 1, cache =>
    let r := getDatabaseSchema fetch cache databaseId
    let rest := resolveN fetch databaseId n r.2.1
    (rest.1, r.2.2 + rest.2)

/-! ## Filter Builder (`cli.py`, `query`, the filter-construction section)

The three branches run in sequence on the same `filter_obj` variable, each
overwriting it when it fires. Each is modelled as a function from the
previous `filter_obj` to the next. The scans are the pure schema functions:
the memoized methods return exactly the scan's value in every reachable
memo state (the memo is only ever written with a scan result). -/

/-- The status-branch predicate leaf. -/
def statusLeaf (statusPropName status : String) : Json :=
  Json.obj [("property", .str statusPropName), ("status", Json.obj [("equals", .str status)])]

/-- `if status:` branch. Both `status` and the discovered property name are
truthiness-tested (`if status_prop_name:`), so empty strings fall through. -/
def statusStep (props : List (String × Json)) (status : Option String)
    (filterObj : Option Json) : Option Json :=
  match status with
  | none => filterObj
  | some st =>
    if st.isEmpty then filterObj
    else
      match getStatusPropertyName props with
      | none => filterObj
      | some statusPropName =>
        if statusPropName.isEmpty then filterObj
        else some (statusLeaf statusPropName st)

/-- One `multi_select`-contains leaf of the tags branch. -/
def tagLeaf (tagPropName tag : String) : Json :=
  Json.obj [("property", .str tagPropName), ("multi_select", Json.obj [("contains", .str tag)])]

/-- `if tags:` branch: split on commas, strip each token, use the first
multi_select property; one token gives a single leaf, otherwise an `and`
conjunction of one leaf per token. -/
def tagsStep (props : List (String × Json)) (tags : Option String)
    (filterObj : Option Json) : Option Json :=
  match tags with
  | none => filterObj
  | some tg =>
    if tg.isEmpty then filterObj
    else
      match getTagPropertyNames props with
      | [] => filterObj
      | tagPropName :: _ =>
        let tagList := (pySplit ',' tg).map pyStrip
        if tagList.length = 1 then some (tagLeaf tagPropName (tagList.headD ""))
        else some (Json.obj [("and", Json.arr (tagList.map (tagLeaf tagPropName)))])

/-- The key of `filter.split("=", 1)`: everything left of the first `=`,
stripped. -/
def genericFilterKey (f : String) : String :=
  pyStrip ((pySplit1 '=' f).headD "")

/-- The value of `filter.split("=", 1)`: everything right of the first `=`
(later `=` signs kept), stripped. -/
def genericFilterValue (f : String) : String :=
  pyStrip ((pySplit1 '=' f).getD 1 "")

/-- `if filter:` branch: parse `key=value`, look the key up case-insensitively
and pick the operator by the found property's type; `title`-equals is the
fallback for every other type. `if prop_def:` is a truthiness test, so both a
missing key and a key whose definition is the empty dict leave `filter_obj`
untouched, as does a string without `=`. -/
def genericStep (props : List (String × Json)) (filt : Option String)
    (filterObj : Option Json) : Option Json :=
  match filt with
  | none => filterObj
  | some f =>
    if f.isEmpty then filterObj
    else if pyContains f '=' then
      let propName := genericFilterKey f
      let value := genericFilterValue f
      match findPropertyByName props propName with
      | none => filterObj
      | some propDef =>
        if !propDef.truthy then filterObj
        else if hasTypeTag propDef "status" then
          some (Json.obj [("property", .str propName), ("status", Json.obj [("equals", .str value)])])
        else if hasTypeTag propDef "select" then
          some (Json.obj [("property", .str propName), ("select", Json.obj [("equals", .str value)])])
        else if hasTypeTag propDef "multi_select" then
          some (Json.obj [("property", .str propName), ("multi_select", Json.obj [("contains", .str value)])])
        else
          some (Json.obj [("property", .str propName), ("title", Json.obj [("equals", .str value)])])
    else filterObj

/-- The whole filter-construction section of `query`: `filter_obj = None`,
then the three branches in order. -/
def buildFilter (props : List (String × Json)) (status tags filt : Option String) : Option Json :=
  genericStep props filt (tagsStep props tags (statusStep props status none))

/-! ## Status update (`cli.py`, `update_status`, the validation section) -/

/-- The decision `update_status` reaches before (or instead of) the remote
`client.update_page` call. -/
inductive UpdateOutcome where
  | errorNoStatusProperty : UpdateOutcome
  | errorInvalidStatus (invalid : String) (availableOptions : List Json) : UpdateOutcome
  | updatePage (statusPropName : String) (status : String) : UpdateOutcome

/-- Python `s in xs` for a string `s` and a list of JSON values (`==` between
a string and a non-string is `False`). -/
def jsonStrMem (s : String) (xs : List Json) : Bool :=
  xs.any fun x =>
    match x with
    | .str t => t = s
    | _ => false

/-- The validation logic of `update_status`: no status property (truthiness
test `if not status_prop_name:`) is an error; then
`if status_options and status not in status_options:` rejects with the
invalid value and the options; otherwise the remote update is invoked. -/
def updateStatus (props : List (String × Json)) (status : String) : UpdateOutcome :=
  match getStatusPropertyName props with
  | none => .errorNoStatusProperty
  | some statusPropName =>
    if statusPropName.isEmpty then .errorNoStatusProperty
    else
      let statusOptions := getStatusOptions props
      if !statusOptions.isEmpty && !jsonStrMem status statusOptions then
        .errorInvalidStatus status statusOptions
      else .updatePage statusPropName status

/-! ## Claims -/

/-- A non-empty string is not `isEmpty`. -/
theorem isEmpty_false_of_ne {s : String} (h : s ≠ "") : s.isEmpty = false := by
  rw [Bool.eq_false_iff]
  intro hh
  exact h ((String.isEmpty_iff s).mp hh)

/-- When the generic branch resolves, its output ignores the incoming filter. -/
theorem genericStep_overrides (props : List (String × Json)) (f : String) (d : Json)
    (hne : f ≠ "") (heq : pyContains f '=' = true)
    (hfound : findPropertyByName props (genericFilterKey f) = some d)
    (htr : d.truthy = true) (prev : Option Json) :
    genericStep props (some f) prev = genericStep props (some f) none := by
  simp only [genericStep, isEmpty_false_of_ne hne, heq, hfound, htr,
    Bool.not_true, Bool.false_eq_true, if_false, if_true]

/-- C1: Filter Builder precedence is last-applicable-wins in the order
status, tags, generic: when a status argument, a tags argument and a
syntactically valid generic `key=value` argument are all supplied and the
schema resolves all three, the resulting filter is exactly the
generic-branch predicate — the status and tags predicates are overwritten,
not conjoined. -/
theorem buildFilter_generic_wins (props : List (String × Json)) (st tg f : String) (d : Json)
    (hst : st ≠ "") (hsp : ∃ n, getStatusPropertyName props = some n ∧ n ≠ "")
    (htg : tg ≠ "") (htp : getTagPropertyNames props ≠ [])
    (hf : f ≠ "") (heq : pyContains f '=' = true)
    (hfound : findPropertyByName props (genericFilterKey f) = some d)
    (htr : d.truthy = true) :
    buildFilter props (some st) (some tg) (some f) = genericStep props (some f) none := by
  rw [buildFilter]
  exact genericStep_overrides props f d hf heq hfound htr _

/-- C5: generic-branch fallback: when the filter string contains no `=`, or
its key (left of the first `=`, trimmed, matched case-insensitively) is not
found in the schema, the generic branch produces no predicate and the
result is exactly what the status/tags branches already produced; nothing
errors. -/
theorem buildFilter_generic_fallback (props : List (String × Json))
    (st tg : Option String) (f : String)
    (h : pyContains f '=' = false ∨ findPropertyByName props (genericFilterKey f) = none) :
    buildFilter props st tg (some f) = buildFilter props st tg none := by
  rw [buildFilter, buildFilter]
  have hnone : ∀ prev, genericStep props none prev = prev := fun _ => rfl
  rw [hnone]
  set prev := tagsStep props tg (statusStep props st none) with hprev
  by_cases hemp : f = ""
  · subst hemp
    rfl
  · rcases h with h | h
    · simp [genericStep, isEmpty_false_of_ne hemp, h]
    · simp [genericStep, isEmpty_false_of_ne hemp, h]


/-- C4: tags branch shape: a non-empty tags argument is split on commas
with each token stripped; the first multi_select property is used; no
multi_select property means no predicate and no error; one token yields a
single multiselect-contains leaf, two or more tokens yield an `and`
conjunction of one leaf per token, all on the same property, in token
order. -/
theorem tagsBranchShape (props : List (String × Json)) (tg : String) (prev : Option Json)
    (htg : tg ≠ "") :
    ((getTagPropertyNames props = [] → tagsStep props (some tg) prev = prev) ∧
     ∀ tagPropName rest, getTagPropertyNames props = tagPropName :: rest →
       ((∀ t, (pySplit ',' tg).map pyStrip = [t] →
           tagsStep props (some tg) prev = some (tagLeaf tagPropName t)) ∧
        (2 ≤ ((pySplit ',' tg).map pyStrip).length →
           tagsStep props (some tg) prev =
             some (Json.obj
               [("and", Json.arr (((pySplit ',' tg).map pyStrip).map (tagLeaf tagPropName)))])))) := by
  constructor
  · intro h
    simp [tagsStep, isEmpty_false_of_ne htg, h]
  · intro tagPropName rest h
    constructor
    · intro t ht
      simp [tagsStep, isEmpty_false_of_ne htg, h, ht]
    · intro hlen
      rw [List.length_map] at hlen
      have hne : ¬ (pySplit ',' tg).length = 1 := by omega
      simp [tagsStep, isEmpty_false_of_ne htg, h, hne]

/-- The option-name comprehension never keeps an empty name: the filter
requires the `name` value to be truthy, and a truthy value is never the
empty string. -/
theorem filterOptionNames_no_empty (opts : List Json) :
    Json.str "" ∉ filterOptionNames opts := by
  intro hmem
  rw [filterOptionNames, List.mem_map] at hmem
  obtain ⟨opt, hopt, hname⟩ := hmem
  rw [List.mem_filter] at hopt
  obtain ⟨-, htr⟩ := hopt
  cases opt with
  | obj fs =>
    rw [pyGet, pyLookupD] at htr
    rw [optName] at hname
    cases hlk : pyLookup fs "name" with
    | none => rw [hlk] at htr; simp [Json.truthy] at htr
    | some v =>
      rw [hlk] at htr hname
      simp at htr hname
      subst hname
      exact absurd htr (by decide)
  | null => simp [pyGet, Json.truthy] at htr
  | bool b => simp [pyGet, Json.truthy] at htr
  | num n => simp [pyGet, Json.truthy] at htr
  | str s => simp [pyGet, Json.truthy] at htr
  | arr xs => simp [pyGet, Json.truthy] at htr

/-- C9: `get_status_options` and `get_tag_options` return the declared
option names with every empty-or-absent-named option skipped — the
returned lists never contain an empty name. -/
theorem optionsNeverEmptyName (props : List (String × Json)) (tagProperty : String) :
    Json.str "" ∉ getStatusOptions props ∧ Json.str "" ∉ getTagOptions props tagProperty := by
  constructor
  · rw [getStatusOptions]
    cases getStatusPropertyName props with
    | none => simp
    | some sp =>
      by_cases h : sp.isEmpty
      · simp [h]
      · simp only [Bool.not_eq_true] at h
        simp only [h, Bool.false_eq_true, if_false]
        exact filterOptionNames_no_empty _
  · exact filterOptionNames_no_empty _


/-- C3 counterexample: a schema whose status property declares an empty
option list. `"X"` is not among the (zero) declared options, yet
`update_status` skips validation (`if status_options and ...`) and invokes
the remote update instead of returning the invalid-value error. -/
theorem updateStatusEmptyOptionsBypass :
    getStatusPropertyName
        [("Status", Json.obj [("type", Json.str "status"),
                              ("status", Json.obj [("options", Json.arr [])])])]
      = some "Status" ∧
    jsonStrMem "X" (getStatusOptions
        [("Status", Json.obj [("type", Json.str "status"),
                              ("status", Json.obj [("options", Json.arr [])])])])
      = false ∧
    updateStatus
        [("Status", Json.obj [("type", Json.str "status"),
                              ("status", Json.obj [("options", Json.arr [])])])]
        "X"
      = UpdateOutcome.updatePage "Status" "X" :=
  ⟨rfl, rfl, rfl⟩

/-- C3 amended: when the schema has a status property and its declared
option list is non-empty, `update_status` with a value not among the
options returns the invalid-value error carrying the value and the full
option list, and does not invoke the remote update. (With an empty option
list the validation is skipped and the update proceeds.) -/
theorem updateStatusInvalidValue (props : List (String × Json)) (status : String)
    (hname : ∃ n, getStatusPropertyName props = some n)
    (hopts : (getStatusOptions props).isEmpty = false)
    (hmem : jsonStrMem status (getStatusOptions props) = false) :
    updateStatus props status
      = UpdateOutcome.errorInvalidStatus status (getStatusOptions props) := by
  obtain ⟨n, hn⟩ := hname
  have hne : n.isEmpty = false := by
    by_contra hh
    rw [Bool.not_eq_false] at hh
    have he : getStatusOptions props = [] := by simp [getStatusOptions, hn, hh]
    simp [he] at hopts
  simp [updateStatus, hn, hne, hopts, hmem]

/-- C3 witness: options `["Todo", "Done"]`, value `"Nope"` — the error
carries the value and the full option list, and no update happens. -/
theorem updateStatusInvalidValue_witness :
    updateStatus
        [("Status", Json.obj [("type", Json.str "status"),
           ("status", Json.obj [("options",
             Json.arr [Json.obj [("name", Json.str "Todo")],
                       Json.obj [("name", Json.str "Done")]])])])]
        "Nope"
      = UpdateOutcome.errorInvalidStatus "Nope" (getStatusOptions
        [("Status", Json.obj [("type", Json.str "status"),
           ("status", Json.obj [("options",
             Json.arr [Json.obj [("name", Json.str "Todo")],
                       Json.obj [("name", Json.str "Done")]])])])]) :=
  updateStatusInvalidValue _ "Nope" ⟨"Status", rfl⟩ rfl rfl

/-- After `cacheSet`, the id maps to the stored schema. -/
theorem cacheGet_cacheSet (c : SchemaCache) (databaseId : String) (s : DatabaseSchema) :
    cacheGet (cacheSet c databaseId s) databaseId = some s := by
  induction c with
  | nil => simp [cacheSet, cacheGet]
  | cons p rest ih =>
    obtain ⟨k, v⟩ := p
    by_cases hk : k = databaseId
    · simp [cacheSet, cacheGet, hk]
    · simp [cacheSet, cacheGet, hk, ih]

/-- Resolving any number of times from a state that caches the id performs
no fetch and leaves the cache unchanged. -/
theorem resolveN_cached (fetch : String → Json) (databaseId : String) (c : SchemaCache)
    (m : DatabaseSchema) (h : cacheGet c databaseId = some m) :
    ∀ n, resolveN fetch databaseId n c = (c, 0) := by
  intro n
  induction n with
  | zero => rfl
  | succ k ih => simp [resolveN, getDatabaseSchema, h, ih]

/-- C7: schema-cache resolve-once invariant: starting from a cache without
the id, the first resolution fetches exactly once; the second resolution
returns the already-stored model without fetching and leaves the cache
unchanged; any `n ≥ 1` successive resolutions fetch exactly once in
total. -/
theorem schemaCacheResolveOnce (fetch : String → Json) (cache : SchemaCache)
    (databaseId : String) (h : cacheGet cache databaseId = none) :
    ((getDatabaseSchema fetch cache databaseId).2.2 = 1) ∧
    (getDatabaseSchema fetch (getDatabaseSchema fetch cache databaseId).2.1 databaseId
       = ((getDatabaseSchema fetch cache databaseId).1,
          (getDatabaseSchema fetch cache databaseId).2.1, 0)) ∧
    (∀ n, 1 ≤ n → (resolveN fetch databaseId n cache).2 = 1) := by
  have h1 : getDatabaseSchema fetch cache databaseId
      = (DatabaseSchema.init databaseId (fetch databaseId),
         cacheSet cache databaseId (DatabaseSchema.init databaseId (fetch databaseId)), 1) := by
    simp [getDatabaseSchema, h]
  have hc := cacheGet_cacheSet cache databaseId (DatabaseSchema.init databaseId (fetch databaseId))
  refine ⟨by rw [h1], ?_, ?_⟩
  · rw [h1]
    simp [getDatabaseSchema, hc]
  · intro n hn
    obtain ⟨k, rfl⟩ : ∃ k, n = k + 1 := ⟨n - 1, by omega⟩
    simp [resolveN, h1, resolveN_cached fetch databaseId _ _ hc]

/-- C7 witness: three resolutions of `"db"` from the empty cache fetch
exactly once. -/
theorem schemaCacheResolveOnce_witness :
    (resolveN (fun _ => Json.obj []) "db" 3 ([] : SchemaCache)).2 = 1 :=
  (schemaCacheResolveOnce (fun _ => Json.obj []) ([] : SchemaCache) "db" rfl).2.2 3 (by omega)


/-- C2 counterexample: on a schema with no status property and no
multi_select property, the boolean returned in the third component records
that the property scan ran. After a first call of either lookup, a second
call scans again — the negative result was not cached
(`self._status_property_name` stays `None`, and the empty list fails the
`if self._tag_property_names:` truthiness guard). -/
theorem memoNegativeRescans :
    ((getStatusPropertyNameS ((getStatusPropertyNameS (DatabaseSchema.init "db"
        (Json.obj [("properties",
          Json.obj [("Name", Json.obj [("type", Json.str "title")])])]))).2.1)).2.2 = true) ∧
    ((getTagPropertyNamesS ((getTagPropertyNamesS (DatabaseSchema.init "db"
        (Json.obj [("properties",
          Json.obj [("Name", Json.obj [("type", Json.str "title")])])]))).2.1)).2.2 = true) :=
  ⟨rfl, rfl⟩

/-- C2 amended: only found/non-empty results are memoized. From the
initial memo state, the first call always scans and both calls return the
scan's value; when the status scan finds a property (resp. the tag scan
finds a non-empty list) the second call returns the memo without scanning;
when the result is absent (resp. empty) every call rescans — the caches do
not distinguish "not yet computed" from "computed as empty/absent". -/
theorem memoizationBehavior (s : DatabaseSchema)
    (hs : s.statusMemo = none) (ht : s.tagMemo = []) :
    (((getStatusPropertyNameS s).1 = getStatusPropertyName (propertiesOf s.schemaData)) ∧
     ((getStatusPropertyNameS s).2.2 = true) ∧
     ((getStatusPropertyNameS ((getStatusPropertyNameS s).2.1)).1
        = getStatusPropertyName (propertiesOf s.schemaData))) ∧
    ((∃ n, getStatusPropertyName (propertiesOf s.schemaData) = some n) →
       (getStatusPropertyNameS ((getStatusPropertyNameS s).2.1)).2.2 = false) ∧
    (getStatusPropertyName (propertiesOf s.schemaData) = none →
       (getStatusPropertyNameS ((getStatusPropertyNameS s).2.1)).2.2 = true) ∧
    (((getTagPropertyNamesS s).1 = getTagPropertyNames (propertiesOf s.schemaData)) ∧
     ((getTagPropertyNamesS s).2.2 = true) ∧
     ((getTagPropertyNamesS ((getTagPropertyNamesS s).2.1)).1
        = getTagPropertyNames (propertiesOf s.schemaData))) ∧
    ((getTagPropertyNames (propertiesOf s.schemaData)).isEmpty = false →
       (getTagPropertyNamesS ((getTagPropertyNamesS s).2.1)).2.2 = false) ∧
    ((getTagPropertyNames (propertiesOf s.schemaData)).isEmpty = true →
       (getTagPropertyNamesS ((getTagPropertyNamesS s).2.1)).2.2 = true) := by
  refine ⟨⟨?_, ?_, ?_⟩, ?_, ?_, ⟨?_, ?_, ?_⟩, ?_, ?_⟩
  · cases h : getStatusPropertyName (propertiesOf s.schemaData) <;>
      simp [getStatusPropertyNameS, hs, h]
  · cases h : getStatusPropertyName (propertiesOf s.schemaData) <;>
      simp [getStatusPropertyNameS, hs, h]
  · cases h : getStatusPropertyName (propertiesOf s.schemaData) <;>
      simp [getStatusPropertyNameS, hs, h]
  · rintro ⟨n, h⟩
    simp [getStatusPropertyNameS, hs, h]
  · intro h
    simp [getStatusPropertyNameS, hs, h]
  · cases h : getTagPropertyNames (propertiesOf s.schemaData) <;>
      simp [getTagPropertyNamesS, ht, h]
  · cases h : getTagPropertyNames (propertiesOf s.schemaData) <;>
      simp [getTagPropertyNamesS, ht, h]
  · cases h : getTagPropertyNames (propertiesOf s.schemaData) <;>
      simp [getTagPropertyNamesS, ht, h]
  · intro h
    cases hl : getTagPropertyNames (propertiesOf s.schemaData) with
    | nil => rw [hl] at h; simp at h
    | cons a l => simp [getTagPropertyNamesS, ht, hl]
  · intro h
    cases hl : getTagPropertyNames (propertiesOf s.schemaData) with
    | nil => simp [getTagPropertyNamesS, ht, hl]
    | cons a l => rw [hl] at h; simp at h

/-- C2 amended witness: on a schema with a status property and a
multi_select property, the second call of each lookup does not rescan. -/
theorem memoizationBehavior_witness :
    ((getStatusPropertyNameS ((getStatusPropertyNameS (DatabaseSchema.init "db"
        (Json.obj [("properties", Json.obj
          [("Status", Json.obj [("type", Json.str "status")]),
           ("Tags", Json.obj [("type", Json.str "multi_select")])])]))).2.1)).2.2 = false) ∧
    ((getTagPropertyNamesS ((getTagPropertyNamesS (DatabaseSchema.init "db"
        (Json.obj [("properties", Json.obj
          [("Status", Json.obj [("type", Json.str "status")]),
           ("Tags", Json.obj [("type", Json.str "multi_select")])])]))).2.1)).2.2 = false) :=
  ⟨(memoizationBehavior _ rfl rfl).2.1 ⟨"Status", rfl⟩,
   (memoizationBehavior _ rfl rfl).2.2.2.2.1 rfl⟩


/-- Unfolding of the normalizer at a dict whose type tag is the string
`ty`. -/
theorem transform_obj_ty (parseIso : String → Option String) (fields : List (String × Json))
    (ty : String) (hty : pyLookup fields "type" = some (Json.str ty)) :
    transformPropertyValue parseIso (Json.obj fields) =
      (if ty = "title" then
        Json.str (joinPlainTexts (pyLookupD fields "title" (.arr [])).asList)
      else if ty = "rich_text" then
        Json.str (joinPlainTexts (pyLookupD fields "rich_text" (.arr [])).asList)
      else if ty = "number" then pyLookupD fields "number" .null
      else if ty = "select" then
        (if (pyLookupD fields "select" .null).truthy then
          pyGet (pyLookupD fields "select" .null) "name" else .null)
      else if ty = "multi_select" then
        Json.arr (((pyLookupD fields "multi_select" (.arr [])).asList).map (fun s => pyGet s "name"))
      else if ty = "status" then
        (if (pyLookupD fields "status" .null).truthy then
          pyGet (pyLookupD fields "status" .null) "name" else .null)
      else if ty = "date" then
        (if (pyLookupD fields "date" .null).truthy then
          (if (pyGet (pyLookupD fields "date" .null) "start").truthy then
            (match pyGet (pyLookupD fields "date" .null) "start" with
             | .str s =>
               (match parseIso s with
                | some iso => Json.str iso
                | none => Json.str s)
             | other => other)
          else .null)
        else .null)
      else if ty = "checkbox" then pyLookupD fields "checkbox" .null
      else if ty = "url" then pyLookupD fields "url" .null
      else if ty = "email" then pyLookupD fields "email" .null
      else if ty = "phone_number" then pyLookupD fields "phone_number" .null
      else if ty = "formula" then
        (match pyLookup fields "formula" with
         | some f => transformPropertyValue parseIso f
         | none => transformPropertyValue parseIso (.obj []))
      else if ty = "relation" then
        Json.arr (((pyLookupD fields "relation" (.arr [])).asList).map (fun r => pyGet r "id"))
      else if ty = "people" then
        Json.arr (((pyLookupD fields "people" (.arr [])).asList).map (fun p => pyGet p "id"))
      else if ty = "files" then
        Json.arr (((pyLookupD fields "files" (.arr [])).asList).map (fun f => pyGet f "name"))
      else if ty = "created_time" then pyLookupD fields "created_time" .null
      else if ty = "created_by" then pyLookupD fields "created_by" .null
      else if ty = "last_edited_time" then pyLookupD fields "last_edited_time" .null
      else if ty = "last_edited_by" then pyLookupD fields "last_edited_by" .null
      else .obj fields) := by
  rw [transformPropertyValue.eq_def]
  split
  case h_1 j fs heq =>
    obtain rfl : fields = fs := by injection heq
    split
    case h_1 ty2 hty2 =>
      obtain rfl : ty2 = ty := by
        rw [hty2] at hty
        injection hty with h1
        injection h1
      cases hfm2 : pyLookup fields "formula" <;> rfl
    case h_2 hne => exact absurd hty (hne ty)
  case h_2 j hj => exact absurd rfl (hj fields)

/-- C6: a formula field value is normalized by recursively applying the
same type-tag dispatch to the nested computed value. -/
theorem formulaRecursesOnNested (parseIso : String → Option String)
    (fields : List (String × Json)) (inner : Json)
    (hty : pyLookup fields "type" = some (Json.str "formula"))
    (hfm : pyLookup fields "formula" = some inner) :
    transformPropertyValue parseIso (Json.obj fields)
      = transformPropertyValue parseIso inner := by
  rw [transform_obj_ty parseIso fields "formula" hty]
  simp [hfm]

/-- C6 witness: normalizing a formula wrapping a number payload carrying 5
yields the number 5. -/
theorem formulaRecursesOnNested_witness :
    transformPropertyValue (fun _ => none)
      (Json.obj [("type", Json.str "formula"),
                 ("formula", Json.obj [("type", Json.str "number"), ("number", Json.num 5)])])
      = Json.num 5 :=
  (formulaRecursesOnNested (fun _ => none)
      [("type", Json.str "formula"),
       ("formula", Json.obj [("type", Json.str "number"), ("number", Json.num 5)])]
      (Json.obj [("type", Json.str "number"), ("number", Json.num 5)]) rfl rfl).trans
    (by simp [transformPropertyValue, pyLookup, pyLookupD])

/-- C8: the normalizer is total (a Lean function, returning a value on
every payload); on a date payload a falsy/absent date yields null, a start
string that parses is re-serialized to the normalized form, and a start
string that fails to parse is passed through unchanged. -/
theorem dateNormalizationTotal (parseIso : String → Option String)
    (fields : List (String × Json))
    (hty : pyLookup fields "type" = some (Json.str "date")) :
    ((pyLookupD fields "date" Json.null).truthy = false →
       transformPropertyValue parseIso (Json.obj fields) = Json.null) ∧
    (∀ dd startStr, pyLookup fields "date" = some dd → dd.truthy = true →
       pyGet dd "start" = Json.str startStr → startStr ≠ "" →
       ((∀ r, parseIso startStr = some r →
           transformPropertyValue parseIso (Json.obj fields) = Json.str r) ∧
        (parseIso startStr = none →
           transformPropertyValue parseIso (Json.obj fields) = Json.str startStr))) := by
  constructor
  · intro h
    rw [transform_obj_ty parseIso fields "date" hty]
    simp [h]
  · intro dd startStr hdd htr hstart hne
    have hld : pyLookupD fields "date" Json.null = dd := by simp [pyLookupD, hdd]
    have hst : (Json.str startStr).truthy = true := by
      simp [Json.truthy, isEmpty_false_of_ne hne]
    constructor
    · intro r hr
      rw [transform_obj_ty parseIso fields "date" hty]
      simp [hld, htr, hstart, hst, hr]
    · intro hr
      rw [transform_obj_ty parseIso fields "date" hty]
      simp [hld, htr, hstart, hst, hr]

/-- C8 witness: a date payload whose start parses is re-serialized by the
parse round-trip. -/
theorem dateNormalizationTotal_witness :
    transformPropertyValue
        (fun s => if s = "2024-01-02" then some "2024-01-02T00:00:00" else none)
        (Json.obj [("type", Json.str "date"),
                   ("date", Json.obj [("start", Json.str "2024-01-02")])])
      = Json.str "2024-01-02T00:00:00" :=
  (((dateNormalizationTotal
      (fun s => if s = "2024-01-02" then some "2024-01-02T00:00:00" else none)
      [("type", Json.str "date"),
       ("date", Json.obj [("start", Json.str "2024-01-02")])] rfl).2
      (Json.obj [("start", Json.str "2024-01-02")]) "2024-01-02"
      rfl rfl rfl (by decide)).1 "2024-01-02T00:00:00" (by simp))

/-- C10: normalizing a list-shaped field value (multi_select, relation,
people, files) produces exactly one output element per input element in
input order, and an element lacking its expected key contributes a null
entry instead of being dropped. -/
theorem listShapedOnePerElement (parseIso : String → Option String)
    (fields : List (String × Json)) (items : List Json) (tag key : String)
    (htag : (tag, key) = ("multi_select", "name") ∨ (tag, key) = ("relation", "id") ∨
            (tag, key) = ("people", "id") ∨ (tag, key) = ("files", "name"))
    (hty : pyLookup fields "type" = some (Json.str tag))
    (hfield : pyLookup fields tag = some (Json.arr items)) :
    transformPropertyValue parseIso (Json.obj fields)
      = Json.arr (items.map (fun itm => pyGet itm key)) ∧
    (items.map (fun itm => pyGet itm key)).length = items.length ∧
    (∀ itm, itm ∈ items → pyLookup itm.asObj key = none → pyGet itm key = Json.null) := by
  refine ⟨?_, List.length_map _ _, ?_⟩
  · rcases htag with h | h | h | h <;>
      (simp only [Prod.mk.injEq] at h; obtain ⟨rfl, rfl⟩ := h) <;>
      rw [transform_obj_ty parseIso fields _ hty] <;>
      simp [hfield, pyLookupD, Json.asList]
  · intro itm _ hlk
    cases itm with
    | obj fs => simp [pyGet, pyLookupD, Json.asObj] at hlk ⊢; simp [hlk]
    | null => rfl
    | bool b => rfl
    | num n => rfl
    | str s => rfl
    | arr xs => rfl

/-- C10 witness: a multi_select payload with one named and one unnamed
option normalizes to a two-element list whose second entry is null. -/
theorem listShapedOnePerElement_witness :
    transformPropertyValue (fun _ => none)
      (Json.obj [("type", Json.str "multi_select"),
                 ("multi_select", Json.arr [Json.obj [("name", Json.str "x")], Json.obj []])])
      = Json.arr ([Json.obj [("name", Json.str "x")], Json.obj []].map
          (fun itm => pyGet itm "name")) :=
  (listShapedOnePerElement (fun _ => none)
    [("type", Json.str "multi_select"),
     ("multi_select", Json.arr [Json.obj [("name", Json.str "x")], Json.obj []])]
    [Json.obj [("name", Json.str "x")], Json.obj []]
    "multi_select" "name" (Or.inl rfl) rfl rfl).1


/-- C1 witness: all three arguments supplied on a schema resolving all
three; the built filter is the generic-branch predicate. -/
theorem buildFilter_generic_wins_witness :
    buildFilter
        [("Status", Json.obj [("type", Json.str "status")]),
         ("Tags", Json.obj [("type", Json.str "multi_select")]),
         ("Priority", Json.obj [("type", Json.str "select")])]
        (some "A") (some "b") (some "priority=high")
      = genericStep
          [("Status", Json.obj [("type", Json.str "status")]),
           ("Tags", Json.obj [("type", Json.str "multi_select")]),
           ("Priority", Json.obj [("type", Json.str "select")])]
          (some "priority=high") none :=
  buildFilter_generic_wins _ "A" "b" "priority=high"
    (Json.obj [("type", Json.str "select")])
    (by decide) ⟨"Status", rfl, by decide⟩ (by decide) (by decide)
    (by decide) (by decide) rfl rfl

/-- C4 witness: `"a, b"` yields a two-leaf conjunction, `"a"` a single
leaf, both on the first multi_select property. -/
theorem tagsBranchShape_witness :
    (tagsStep [("Tags", Json.obj [("type", Json.str "multi_select")])] (some "a, b") none
       = some (Json.obj [("and", Json.arr (((pySplit ',' "a, b").map pyStrip).map
           (tagLeaf "Tags")))])) ∧
    (tagsStep [("Tags", Json.obj [("type", Json.str "multi_select")])] (some "a") none
       = some (tagLeaf "Tags" "a")) :=
  ⟨((tagsBranchShape [("Tags", Json.obj [("type", Json.str "multi_select")])]
       "a, b" none (by decide)).2 "Tags" [] rfl).2 (by decide),
   ((tagsBranchShape [("Tags", Json.obj [("type", Json.str "multi_select")])]
       "a" none (by decide)).2 "Tags" [] rfl).1 "a" (by decide)⟩

/-- C5 witness: the key `priority` resolves in no property of the
title-only schema, so the tags-branch result survives untouched. -/
theorem buildFilter_generic_fallback_witness :
    buildFilter [("Name", Json.obj [("type", Json.str "title")])]
        (some "A") (some "b") (some "priority=high")
      = buildFilter [("Name", Json.obj [("type", Json.str "title")])]
          (some "A") (some "b") none :=
  buildFilter_generic_fallback _ (some "A") (some "b") "priority=high" (Or.inr rfl)

end NotionTool
